import Mathlib

set_option autoImplicit false

/-!
Shallow embedding of the VideoNote task-orchestration core
(`app/services/note_service.py` together with its status/result lookup
helpers), and proofs of the specification claims about it.

External collaborators (downloader, transcriber, LLM, frame extraction) are
modelled as oracles whose outcomes are fixed by an environment record; the
on-disk workspace layout under `settings.output_dir` is modelled as an
association list from directory names to the files the pipeline reads and
writes in them.
-/

namespace VideoNote

/-! ## Data model (`app/models/*.py`)

Timestamps and durations are `float` seconds in the source; the claims never
compute with them, so they are embedded as integers. -/

structure AudioDownloadResult where
  file_path : String
  title : String
  duration : Int
  video_id : String
  platform : String
  cover_url : Option String
deriving Repr, DecidableEq

structure TranscriptSegment where
  start : Int
  stop : Int
  text : String
deriving Repr, DecidableEq

structure TranscriptResult where
  language : Option String
  full_text : String
  segments : List TranscriptSegment
deriving Repr, DecidableEq

structure NoteResult where
  markdown : String
  transcript : TranscriptResult
  audio_meta : AudioDownloadResult
deriving Repr, DecidableEq

/-- The `{status, message}` record stored in `status.json`. -/
structure StatusRecord where
  status : String
  message : String
deriving Repr, DecidableEq

/-- The projection of a `NoteResult` written to `result.json` by `_save_result`. -/
structure SavedResult where
  markdown : String
  title : String
  duration : Int
  platform : String
  video_id : String
  cover_url : Option String
deriving Repr, DecidableEq

/-! ## Screenshot markers

Embedding of the regex `\[\[Screenshot:(\d{1,2}):(\d{2})\]\]` and of the
Python string operations `re.findall`, `re.sub(pattern, "")` and
`str.replace` used by `_process_screenshots`. -/

/-- The literal head of a screenshot marker. -/
def markerHead : List Char := "[[Screenshot:".toList

/-- Match `:DD]]` (a colon, exactly two digits, then `]]`) at the head of the
input, returning the two digit characters and the remaining suffix. -/
def matchSecondsTail : List Char → Option (List Char × List Char)
  | ':' :: c :: d :: ']' :: ']' :: rest =>
    if c.isDigit && d.isDigit then some ([c, d], rest) else none
  | _ => none

/-- After the marker head, match `(\d{1,2}):(\d{2})]]`, with the regex's
greedy backtracking on the one-or-two-digit minutes group.  Returns the
capture groups (minutes digits, seconds digits) and the remaining suffix. -/
def matchMinutes : List Char → Option ((List Char × List Char) × List Char)
  | [] => none
  | a :: rest =>
    if a.isDigit then
      match rest with
      | [] => none
      | b :: rest2 =>
        if b.isDigit then
          match matchSecondsTail rest2 with
          | some (ss, rem) => some (([a, b], ss), rem)
          | none =>
            match matchSecondsTail rest with
            | some (ss, rem) => some (([a], ss), rem)
            | none => none
        else
          match matchSecondsTail rest with
          | some (ss, rem) => some (([a], ss), rem)
          | none => none
    else none

/-- Try to match one full marker at the head of the input. -/
def matchMarkerAt (s : List Char) : Option ((List Char × List Char) × List Char) :=
  if markerHead.isPrefixOf s then matchMinutes (s.drop markerHead.length)
  else none

/-- Left-to-right scan for all non-overlapping matches of the marker pattern
(the semantics of `re.findall`), fuel-bounded by the input length. -/
def scanMarkers : Nat → List Char → List (List (Char) × List Char)
  | 0, _ => []
  | _, [] => []
  | fuel + 1, c :: rest =>
    match matchMarkerAt (c :: rest) with
    | some (groups, rem) => groups :: scanMarkers fuel rem
    | none => scanMarkers fuel rest

/-- `re.findall(pattern, s)`: the capture-group pairs of all matches, in
first-to-last order of appearance. -/
def findMarkers (s : String) : List (String × String) :=
  (scanMarkers s.toList.length s.toList).map fun p => (String.mk p.1, String.mk p.2)

/-- Helper for `stripMarkers`, fuel-bounded by the input length. -/
def stripCh : Nat → List Char → List Char
  | 0, s => s
  | _, [] => []
  | fuel + 1, c :: rest =>
    match matchMarkerAt (c :: rest) with
    | some (_, rem) => stripCh fuel rem
    | none => c :: stripCh fuel rest

/-- `re.sub(pattern, "", s)`: delete every match of the marker pattern. -/
def stripMarkers (s : String) : String :=
  String.mk (stripCh s.toList.length s.toList)

/-- Helper for `pyReplace`, fuel-bounded by the input length. -/
def replaceCh (pat rep : List Char) : Nat → List Char → List Char
  | 0, s => s
  | _, [] => []
  | fuel + 1, c :: rest =>
    if pat.isEmpty then c :: rest
    else if pat.isPrefixOf (c :: rest) then
      rep ++ replaceCh pat rep fuel ((c :: rest).drop pat.length)
    else
      c :: replaceCh pat rep fuel rest

/-- Python `str.replace(pat, rep)`: replace every non-overlapping occurrence
of `pat`, left to right. -/
def pyReplace (s pat rep : String) : String :=
  String.mk (replaceCh pat.toList rep.toList s.toList.length s.toList)

/-- `int` on a string of decimal digits. -/
def natOfDigits (l : List Char) : Nat :=
  l.foldl (fun n c => n * 10 + (c.toNat - Char.toNat '0')) 0

/-- `pathlib.Path(p).name`: the final path component (the characters after
the last separator). -/
def pathName (p : String) : String :=
  String.mk (p.toList.foldl (fun acc c => if c = '/' then [] else acc ++ [c]) [])

instance {ε α : Type} [DecidableEq ε] [DecidableEq α] : DecidableEq (Except ε α) :=
  fun a b =>
    match a, b with
    | Except.error e, Except.error f =>
      if h : e = f then Decidable.isTrue (h ▸ rfl)
      else Decidable.isFalse fun hc => h (Except.error.inj hc)
    | Except.ok x, Except.ok y =>
      if h : x = y then Decidable.isTrue (h ▸ rfl)
      else Decidable.isFalse fun hc => h (Except.ok.inj hc)
    | Except.error _, Except.ok _ => Decidable.isFalse fun hc => Except.noConfusion hc
    | Except.ok _, Except.error _ => Decidable.isFalse fun hc => Except.noConfusion hc

/-! ## Events and oracles -/

/-- Observable actions of one pipeline run: status-ledger writes and
invocations of the external collaborators. -/
inductive Event where
  | statusWrite (dir : String) (record : StatusRecord)
  | downloadCalled
  | transcribeCalled
  | summarizeCalled
  | videoDownloadCalled
  | extractFramesCalled
deriving Repr, DecidableEq

/-- Oracles used by `_process_screenshots`: the outcome of
`downloader.download_video` and of `downloader.extract_frames`. -/
structure ShotEnv where
  downloadVideo : Except String String
  extractFrames : List Nat → Except String (List String)

/-- The marker text rebuilt from its capture groups, exactly as the source
rebuilds `f"[[Screenshot:{minutes}:{seconds}]]"`. -/
def markerText (mm ss : String) : String :=
  "[[Screenshot:" ++ mm ++ ":" ++ ss ++ "]]"

/-- The image reference substituted for a marker:
`f"![截图 {minutes}:{seconds}](screenshots/{Path(frame).name})"`. -/
def imageText (mm ss framePath : String) : String :=
  "![截图 " ++ mm ++ ":" ++ ss ++ "](screenshots/" ++ pathName framePath ++ ")"

/-- The `for i, (minutes, seconds) in enumerate(matches)` replacement loop:
the i-th match's marker text is `str.replace`d (all occurrences) with the
image reference for the i-th frame, or with `""` when `i` is beyond the
frame list. -/
def replaceMarkersLoop (frames : List String) (found : List (String × String))
    (md : String) : String :=
  found.enum.foldl
    (fun acc p =>
      let marker := markerText p.2.1 p.2.2
      if p.1 < frames.length then
        pyReplace acc marker (imageText p.2.1 p.2.2 (frames.getD p.1 ""))
      else
        pyReplace acc marker "")
    md

/-- Result of the screenshot resolver: the rewritten text plus the
collaborator invocations it performed. -/
structure ShotOut where
  text : String
  events : List Event
deriving Repr

/-- `NoteService._process_screenshots`: find all markers; if none, return the
text unchanged without touching the downloader; otherwise download the video
and extract one frame per marker timestamp, replacing markers positionally;
any error from the downloader is caught and every marker is stripped. -/
def processScreenshots (env : ShotEnv) (markdown : String) : ShotOut :=
  let found := findMarkers markdown
  if found.isEmpty then ⟨markdown, []⟩
  else
    let timestamps := found.map fun p => natOfDigits p.1.toList * 60 + natOfDigits p.2.toList
    match env.downloadVideo with
    | Except.error _ => ⟨stripMarkers markdown, [Event.videoDownloadCalled]⟩
    | Except.ok _ =>
      match env.extractFrames timestamps with
      | Except.error _ =>
          ⟨stripMarkers markdown, [Event.videoDownloadCalled, Event.extractFramesCalled]⟩
      | Except.ok framePaths =>
          ⟨replaceMarkersLoop framePaths found markdown,
           [Event.videoDownloadCalled, Event.extractFramesCalled]⟩

/-! ## Workspace filesystem model

The contents of `settings.output_dir` as an association list from directory
names to the files the pipeline reads and writes inside them. -/

/-- State of one step's cache file: missing, present but unparseable, or
present and deserializing to a valid artifact. -/
inductive CacheState (α : Type) where
  | absent
  | invalid
  | valid (a : α)
deriving Repr, DecidableEq

/-- The files of one task directory. -/
structure DirContent where
  status : Option StatusRecord := none
  taskIdFile : Option String := none
  resultFile : Option SavedResult := none
  noteFile : Option String := none
  audioCache : CacheState AudioDownloadResult := CacheState.absent
  transcriptCache : CacheState TranscriptResult := CacheState.absent
deriving Repr, DecidableEq

/-- A freshly created, empty task directory. -/
def DirContent.empty : DirContent :=
  ⟨none, none, none, none, CacheState.absent, CacheState.absent⟩

structure FS where
  dirs : List (String × DirContent)
deriving Repr, DecidableEq

def lookupDir : List (String × DirContent) → String → Option DirContent
  | [], _ => none
  | (k, d) :: t, name => if k = name then some d else lookupDir t name

def FS.get (fs : FS) (name : String) : Option DirContent :=
  lookupDir fs.dirs name

def FS.dirExists (fs : FS) (name : String) : Bool :=
  (fs.get name).isSome

def updateDirs (name : String) (f : DirContent → DirContent) :
    List (String × DirContent) → List (String × DirContent)
  | [] => []
  | (k, d) :: t => if k = name then (k, f d) :: t else (k, d) :: updateDirs name f t

def FS.update (fs : FS) (name : String) (f : DirContent → DirContent) : FS :=
  ⟨updateDirs name f fs.dirs⟩

/-- `Path.mkdir(parents=True, exist_ok=True)`. -/
def FS.mkdir (fs : FS) (name : String) : FS :=
  if fs.dirExists name then fs else ⟨fs.dirs ++ [(name, DirContent.empty)]⟩

def removeDir (name : String) : List (String × DirContent) → List (String × DirContent)
  | [] => []
  | (k, d) :: t => if k = name then removeDir name t else (k, d) :: removeDir name t

/-- `Path.rename`: move the directory's contents to the new name. -/
def FS.rename (fs : FS) (oldName newName : String) : FS :=
  match fs.get oldName with
  | none => fs
  | some d => ⟨removeDir oldName fs.dirs ++ [(newName, d)]⟩

def FS.empty : FS := ⟨[]⟩

/-! ## Pipeline controller (`NoteService.generate` and its sub-steps) -/

/-- One run's oracle environment: the predetermined outcome of each external
collaborator call, of the workspace rename, and of each numbered status-file
write attempt; plus the configuration the run observes. -/
structure Env where
  download : Except String AudioDownloadResult
  transcribe : Except String TranscriptResult
  summarize : Except String String
  downloadVideo : Except String String
  extractFrames : List Nat → Except String (List String)
  statusWriteOk : Nat → Bool
  renameOk : Bool
  now : String
  isLocalTranscriber : Bool

/-- Mutable run state threaded through the pipeline: the filesystem, the
event trace so far, and the number of status-write attempts so far. -/
structure RunSt where
  fs : FS
  trace : List Event
  writes : Nat

/-- `NoteService._update_status`: write the full `{status, message}` record
to a temp file and atomically replace `status.json` in `task_dir`.  The n-th
write attempt of a run succeeds iff `env.statusWriteOk n`; a failed write, or
a missing directory, raises — the method has no handler of its own. -/
def updateStatus (env : Env) (st : RunSt) (dir : String) (r : StatusRecord) :
    RunSt × Except String Unit :=
  if st.fs.dirExists dir then
    if env.statusWriteOk st.writes then
      (⟨st.fs.update dir (fun d => {d with status := some r}),
        st.trace ++ [Event.statusWrite dir r], st.writes + 1⟩, Except.ok ())
    else (⟨st.fs, st.trace, st.writes + 1⟩, Except.error "status write failed")
  else (⟨st.fs, st.trace, st.writes + 1⟩, Except.error "no such directory")

/-- `NoteService._step_download`: return the cached `audio_meta.json`
artifact when it parses; a missing or unparseable cache file falls through
to the downloader, whose result is cached. -/
def stepDownload (env : Env) (st : RunSt) (dir : String) :
    RunSt × Except String AudioDownloadResult :=
  match ((st.fs.get dir).map (fun d => d.audioCache)).getD CacheState.absent with
  | CacheState.valid a => (st, Except.ok a)
  | _ =>
    let st1 : RunSt := ⟨st.fs, st.trace ++ [Event.downloadCalled], st.writes⟩
    match env.download with
    | Except.error e => (st1, Except.error e)
    | Except.ok a =>
      (⟨st1.fs.update dir (fun d => {d with audioCache := CacheState.valid a}),
        st1.trace, st1.writes⟩, Except.ok a)

/-- The guarded `transcribing` progress writes of `_step_transcribe`:
`if cond and task_dir: self._update_status(task_dir, "transcribing", msg)`. -/
def progressWrite (env : Env) (st : RunSt) (taskDir : Option String) (cond : Bool)
    (msg : String) : RunSt × Except String Unit :=
  match taskDir with
  | some d =>
    if cond then updateStatus env st d ⟨"transcribing", msg⟩ else (st, Except.ok ())
  | none => (st, Except.ok ())

/-- `NoteService._step_transcribe`: like the download step, plus two extra
progress writes to the status ledger on a cache miss (one before invoking a
local model, one after transcription); those writes can themselves raise. -/
def stepTranscribe (env : Env) (st : RunSt) (_audioPath : String) (dir : String)
    (taskDir : Option String) : RunSt × Except String TranscriptResult :=
  match ((st.fs.get dir).map (fun d => d.transcriptCache)).getD CacheState.absent with
  | CacheState.valid t => (st, Except.ok t)
  | _ =>
    match progressWrite env st taskDir env.isLocalTranscriber "正在加载本地语音模型..." with
    | (st1, Except.error e) => (st1, Except.error e)
    | (st1, Except.ok _) =>
      let st2 : RunSt := ⟨st1.fs, st1.trace ++ [Event.transcribeCalled], st1.writes⟩
      match env.transcribe with
      | Except.error e => (st2, Except.error e)
      | Except.ok t =>
        match progressWrite env st2 taskDir true "转录完成，正在保存..." with
        | (st3, Except.error e) => (st3, Except.error e)
        | (st3, Except.ok _) =>
          (⟨st3.fs.update dir (fun d => {d with transcriptCache := CacheState.valid t}),
            st3.trace, st3.writes⟩, Except.ok t)

/-- `NoteService._sanitize_filename`: strip `<>:"/\|?*` and cap at 50. -/
def sanitizeFilename (s : String) : String :=
  String.mk ((s.toList.filter fun c =>
    !(['<', '>', ':', '"', '/', '\\', '|', '?', '*'].contains c)).take 50)

/-- The `while final_dir.exists()` collision loop of `generate` step 1.5:
starting from `base` with `counter = 1`, move to `base_counter` and bump the
counter while the current candidate exists on disk.  The fuel bound
`dirs.length + 1` suffices: directory names are distinct, so some candidate
among the first `dirs.length + 1` probes is free. -/
def collisionLoop (fs : FS) (base : String) : Nat → String → Nat → String
  | 0, cur, _ => cur
  | fuel + 1, cur, counter =>
    if fs.dirExists cur then
      collisionLoop fs base fuel (base ++ "_" ++ toString counter) (counter + 1)
    else cur

def firstFree (fs : FS) (base : String) : String :=
  collisionLoop fs base (fs.dirs.length + 1) base 1

/-- `NoteService._save_result`: the projection of a `NoteResult` written to
`result.json`. -/
def savedOf (r : NoteResult) : SavedResult :=
  ⟨r.markdown, r.audio_meta.title, r.audio_meta.duration, r.audio_meta.platform,
   r.audio_meta.video_id, r.audio_meta.cover_url⟩

/-- Output of one `generate` run: final filesystem, event trace, and the
returned result or raised error. -/
structure GenOut where
  fs : FS
  trace : List Event
  result : Except String NoteResult
deriving Repr

/-- The `except` clause of `generate`: if the directory currently named by
`final_dir` exists, write a `failed` status carrying the error description,
then re-raise; if that very status write raises, its error propagates
instead.  If the directory does not exist, nothing is written. -/
def failHandler (env : Env) (st : RunSt) (finalDir : String) (e : String) : GenOut :=
  if st.fs.dirExists finalDir then
    match updateStatus env st finalDir ⟨"failed", e⟩ with
    | (st1, Except.ok _) => ⟨st1.fs, st1.trace, Except.error e⟩
    | (st1, Except.error e2) => ⟨st1.fs, st1.trace, Except.error e2⟩
  else ⟨st.fs, st.trace, Except.error e⟩

/-- Sequencing of a fallible pipeline action with an error continuation
(the enclosing `try` of `generate`). -/
def andThen {α : Type} (x : RunSt × Except String α)
    (onErr : RunSt → String → GenOut) (k : RunSt → α → GenOut) : GenOut :=
  match x with
  | (st, Except.error e) => onErr st e
  | (st, Except.ok a) => k st a

/-- `NoteService.generate`: the pipeline controller, mirrored line by line.
Creates the id-named temp directory; writes `downloading`; runs the cached
download; promotes the workspace to `now_sanitizedTitle` with numeric
collision suffixes, renames, and writes the `.task_id` back-reference;
writes `transcribing` and runs the cached transcription; writes
`summarizing` and calls the LLM; writes `screenshots` and resolves markers;
persists `note.md` and `result.json`; writes `success` and returns.  Any
raise lands in `failHandler` with the current value of `final_dir`. -/
def generate (env : Env) (fs0 : FS) (taskId : String) : GenOut :=
  let tempDir := taskId
  let st0 : RunSt := ⟨fs0.mkdir tempDir, [], 0⟩
  andThen (updateStatus env st0 tempDir ⟨"downloading", "正在下载视频音频..."⟩)
    (fun st e => failHandler env st tempDir e) (fun st1 _ =>
  andThen (stepDownload env st1 tempDir)
    (fun st e => failHandler env st tempDir e) (fun st2 audioMeta =>
  let newDirName := env.now ++ "_" ++ sanitizeFilename audioMeta.title
  let finalDir := firstFree st2.fs newDirName
  if env.renameOk then
    let fsB := (st2.fs.rename tempDir finalDir).update finalDir
        (fun d => {d with taskIdFile := some taskId})
    let st3 : RunSt := ⟨fsB, st2.trace, st2.writes⟩
    andThen (updateStatus env st3 finalDir ⟨"transcribing", "正在转写音频..."⟩)
      (fun st e => failHandler env st finalDir e) (fun st4 _ =>
    andThen (stepTranscribe env st4 audioMeta.file_path finalDir (some finalDir))
      (fun st e => failHandler env st finalDir e) (fun st5 transcript =>
    andThen (updateStatus env st5 finalDir ⟨"summarizing", "正在生成笔记..."⟩)
      (fun st e => failHandler env st finalDir e) (fun st6 _ =>
    andThen (⟨st6.fs, st6.trace ++ [Event.summarizeCalled], st6.writes⟩, env.summarize)
      (fun st e => failHandler env st finalDir e) (fun st6a markdown0 =>
    andThen (updateStatus env st6a finalDir ⟨"screenshots", "正在处理截图..."⟩)
      (fun st e => failHandler env st finalDir e) (fun st7 _ =>
    let shot := processScreenshots ⟨env.downloadVideo, env.extractFrames⟩ markdown0
    let st8 : RunSt :=
      ⟨st7.fs.update finalDir (fun d => {d with noteFile := some shot.text}),
       st7.trace ++ shot.events, st7.writes⟩
    let result : NoteResult := ⟨shot.text, transcript, audioMeta⟩
    let st9 : RunSt :=
      ⟨st8.fs.update finalDir (fun d => {d with resultFile := some (savedOf result)}),
       st8.trace, st8.writes⟩
    andThen (updateStatus env st9 finalDir ⟨"success", "笔记生成完成"⟩)
      (fun st e => failHandler env st finalDir e) (fun st10 _ =>
    ⟨st10.fs, st10.trace, Except.ok result⟩))))))
  else
    failHandler env st2 finalDir "rename failed"))

/-! ## Status and result lookup -/

/-- The scan half of `NoteService._find_dir_by_task_id`: the first directory
whose `.task_id` back-reference equals the task id. -/
def scanTaskId (taskId : String) : List (String × DirContent) → Option String
  | [] => none
  | (k, d) :: t => if d.taskIdFile = some taskId then some k else scanTaskId taskId t

/-- `NoteService._find_dir_by_task_id`: the directly id-named directory when
it exists and holds a `status.json`, else the back-reference scan. -/
def findDirByTaskId (fs : FS) (taskId : String) : Option String :=
  match fs.get taskId with
  | some d => if d.status.isSome then some taskId else scanTaskId taskId fs.dirs
  | none => scanTaskId taskId fs.dirs

/-- `NoteService.get_status`: resolve the task directory (dual-path), then
read `status.json`, with `not_found` when the file is absent. -/
def getStatus (fs : FS) (taskId : String) : StatusRecord :=
  let dir := (findDirByTaskId fs taskId).getD taskId
  match (fs.get dir).bind (fun d => d.status) with
  | none => ⟨"not_found", "任务不存在"⟩
  | some r => r

/-- `NoteService.get_result`: resolve the task directory (dual-path), then
read `result.json`, absent when the file is absent. -/
def getResult (fs : FS) (taskId : String) : Option SavedResult :=
  let dir := (findDirByTaskId fs taskId).getD taskId
  (fs.get dir).bind (fun d => d.resultFile)

/-! ## Trace projections -/

/-- The sequence of states written to the status ledger during a run. -/
def statesOf (tr : List Event) : List String :=
  tr.filterMap fun e =>
    match e with
    | Event.statusWrite _ r => some r.status
    | _ => none

/-- Collapse consecutive duplicates. -/
def collapseRuns : List String → List String
  | [] => []
  | [a] => [a]
  | a :: b :: t => if a = b then collapseRuns (b :: t) else a :: collapseRuns (b :: t)

/-- `failed` appears at most once and only as the final ledger write. -/
def failedOnlyLastB : List String → Bool
  | [] => true
  | s :: t => if s = "failed" then t.isEmpty else failedOnlyLastB t

/-! ## Sample environment for concrete evaluations -/

def sampleAudio : AudioDownloadResult :=
  ⟨"/data/a.m4a", "Demo", 120, "vid1", "youtube", none⟩

def sampleTranscript : TranscriptResult :=
  ⟨some "en", "hello world", [⟨0, 5, "hello world"⟩]⟩

def okEnv : Env where
  download := Except.ok sampleAudio
  transcribe := Except.ok sampleTranscript
  summarize := Except.ok "note body"
  downloadVideo := Except.ok "/data/v.mp4"
  extractFrames := fun ts => Except.ok (ts.map fun t => "/f/s" ++ toString t ++ ".jpg")
  statusWriteOk := fun _ => true
  renameOk := true
  now := "20240101"
  isLocalTranscriber := false


/-- The per-marker timestamp list `int(minutes) * 60 + int(seconds)` of the
resolver, by itself. -/
def timestampsOf (md : String) : List Nat :=
  (findMarkers md).map fun p => natOfDigits p.1.toList * 60 + natOfDigits p.2.toList

/-- A task directory holding a valid cached download artifact. -/
def dirWithAudio : DirContent :=
  { DirContent.empty with audioCache := CacheState.valid sampleAudio }

/-- A task directory whose cached artifacts are present but unparseable. -/
def dirCorrupt : DirContent :=
  { DirContent.empty with
      audioCache := CacheState.invalid
      transcriptCache := CacheState.invalid }

/-- A task directory holding a valid cached transcript artifact. -/
def dirWithTranscript : DirContent :=
  { DirContent.empty with transcriptCache := CacheState.valid sampleTranscript }

/-- `okEnv` with a failing audio download. -/
def dlFailEnv : Env := { okEnv with download := Except.error "DownloadError: boom" }

/-- `okEnv` whose fourth status-write attempt (the `summarizing` write of a
fresh cache-miss run) fails. -/
def wFailEnv : Env := { okEnv with statusWriteOk := fun n => decide (n ≠ 3) }

/-- `okEnv` whose sixth status-write attempt (the final `success` write of a
fresh cache-miss run) fails. -/
def successWriteFailEnv : Env :=
  { okEnv with statusWriteOk := fun n => decide (n ≠ 5) }

/-- `okEnv` with a failing LLM call. -/
def sumFailEnv : Env :=
  { okEnv with summarize := Except.error "SummarizationError: auth" }

/-- `okEnv` whose workspace rename raises. -/
def renameFailEnv : Env := { okEnv with renameOk := false }

/-! ## Basic evaluations -/

example : findMarkers "[[Screenshot:09:05]]" = [("09", "05")] := by decide
example : findMarkers "[[Screenshot:9:5]]" = [] := by decide
example : findMarkers "a [[Screenshot:01:05]] b [[Screenshot:01:05]] c" =
    [("01", "05"), ("01", "05")] := by decide

example :
    statesOf (generate okEnv FS.empty "tid-1").trace =
      ["downloading", "transcribing", "transcribing", "summarizing",
       "screenshots", "success"] := by decide

example :
    getStatus (generate okEnv FS.empty "tid-1").fs "tid-1" =
      ⟨"success", "笔记生成完成"⟩ := by decide

/-! ## Trace helper lemmas -/

@[simp] lemma statesOf_nil : statesOf [] = [] := rfl

@[simp] lemma statesOf_append (a b : List Event) :
    statesOf (a ++ b) = statesOf a ++ statesOf b :=
  List.filterMap_append a b _

@[simp] lemma statesOf_write (d : String) (r : StatusRecord) (t : List Event) :
    statesOf (Event.statusWrite d r :: t) = r.status :: statesOf t := rfl

@[simp] lemma statesOf_download (t : List Event) :
    statesOf (Event.downloadCalled :: t) = statesOf t := rfl

@[simp] lemma statesOf_transcribe (t : List Event) :
    statesOf (Event.transcribeCalled :: t) = statesOf t := rfl

@[simp] lemma statesOf_summarize (t : List Event) :
    statesOf (Event.summarizeCalled :: t) = statesOf t := rfl

@[simp] lemma statesOf_videoDownload (t : List Event) :
    statesOf (Event.videoDownloadCalled :: t) = statesOf t := rfl

@[simp] lemma statesOf_extract (t : List Event) :
    statesOf (Event.extractFramesCalled :: t) = statesOf t := rfl

/-- The screenshot resolver performs no status-ledger writes. -/
@[simp] lemma statesOf_shot_events (se : ShotEnv) (md : String) :
    statesOf (processScreenshots se md).events = [] := by
  obtain ⟨dv, ef⟩ := se
  unfold processScreenshots
  rcases h : findMarkers md with _ | ⟨p, l⟩ <;> simp only [h]
  · simp [statesOf]
  · cases dv with
    | error e => simp [statesOf]
    | ok v =>
      cases hef : ef ((p :: l).map fun q => natOfDigits q.1.toList * 60 + natOfDigits q.2.toList) with
      | error e => simp [statesOf, hef]
      | ok fr => simp [statesOf, hef]

/-- Success-path run: with a fresh workspace, all status writes succeeding,
a successful rename, successful download / transcription / summarization,
and a descriptive directory name distinct from the task id, the ledger
receives `downloading`, `transcribing` (with an extra progress repeat for a
local transcriber), `summarizing`, `screenshots`, `success`, and the run
returns the assembled note. -/
lemma generate_success_trace
    (env : Env) (tid : String) (a : AudioDownloadResult) (t : TranscriptResult)
    (md : String)
    (hsw : env.statusWriteOk = fun _ => true)
    (hrn : env.renameOk = true)
    (hd : env.download = Except.ok a)
    (ht : env.transcribe = Except.ok t)
    (hs : env.summarize = Except.ok md)
    (hbase : env.now ++ "_" ++ sanitizeFilename a.title ≠ tid) :
    statesOf (generate env FS.empty tid).trace =
      ["downloading", "transcribing"]
        ++ (if env.isLocalTranscriber then ["transcribing"] else [])
        ++ ["transcribing", "summarizing", "screenshots", "success"]
      ∧ (generate env FS.empty tid).result =
          Except.ok ⟨(processScreenshots ⟨env.downloadVideo, env.extractFrames⟩ md).text,
                     t, a⟩ := by
  have hTid : tid ≠ env.now ++ "_" ++ sanitizeFilename a.title := fun h => hbase h.symm
  cases hL : env.isLocalTranscriber <;>
    simp [generate, andThen, updateStatus, stepDownload, stepTranscribe, progressWrite,
          firstFree, collisionLoop, FS.mkdir, FS.dirExists, FS.get, FS.update, FS.rename,
          lookupDir, updateDirs, removeDir, DirContent.empty, FS.empty,
          hsw, hrn, hd, ht, hs, hL, hTid, savedOf]


/-! ## Scenario lemmas for generate -/

lemma generate_download_fail
    (env : Env) (tid : String) (e : String)
    (hsw : env.statusWriteOk = fun _ => true)
    (hd : env.download = Except.error e) :
    (generate env FS.empty tid).trace =
      [Event.statusWrite tid ⟨"downloading", "正在下载视频音频..."⟩,
       Event.downloadCalled,
       Event.statusWrite tid ⟨"failed", e⟩]
      ∧ (generate env FS.empty tid).result = Except.error e := by
  simp [generate, andThen, updateStatus, stepDownload, failHandler,
        FS.mkdir, FS.dirExists, FS.get, FS.update, lookupDir, updateDirs,
        DirContent.empty, FS.empty, hsw, hd]

lemma generate_transcribe_fail
    (env : Env) (tid : String) (a : AudioDownloadResult) (e : String)
    (hsw : env.statusWriteOk = fun _ => true)
    (hrn : env.renameOk = true)
    (hd : env.download = Except.ok a)
    (ht : env.transcribe = Except.error e)
    (hL : env.isLocalTranscriber = false)
    (hbase : env.now ++ "_" ++ sanitizeFilename a.title ≠ tid) :
    statesOf (generate env FS.empty tid).trace =
      ["downloading", "transcribing", "failed"]
      ∧ (generate env FS.empty tid).trace.getLast? =
          some (Event.statusWrite (env.now ++ "_" ++ sanitizeFilename a.title)
            ⟨"failed", e⟩)
      ∧ (generate env FS.empty tid).result = Except.error e := by
  have hTid : tid ≠ env.now ++ "_" ++ sanitizeFilename a.title := fun h => hbase h.symm
  simp [generate, andThen, updateStatus, stepDownload, stepTranscribe, progressWrite,
        failHandler, firstFree, collisionLoop, FS.mkdir, FS.dirExists, FS.get,
        FS.update, FS.rename, lookupDir, updateDirs, removeDir, DirContent.empty,
        FS.empty, hsw, hrn, hd, ht, hL, hTid]

lemma generate_summarize_fail
    (env : Env) (tid : String) (a : AudioDownloadResult) (t : TranscriptResult)
    (e : String)
    (hsw : env.statusWriteOk = fun _ => true)
    (hrn : env.renameOk = true)
    (hd : env.download = Except.ok a)
    (ht : env.transcribe = Except.ok t)
    (hs : env.summarize = Except.error e)
    (hL : env.isLocalTranscriber = false)
    (hbase : env.now ++ "_" ++ sanitizeFilename a.title ≠ tid) :
    statesOf (generate env FS.empty tid).trace =
      ["downloading", "transcribing", "transcribing", "summarizing", "failed"]
      ∧ (generate env FS.empty tid).trace.getLast? =
          some (Event.statusWrite (env.now ++ "_" ++ sanitizeFilename a.title)
            ⟨"failed", e⟩)
      ∧ (generate env FS.empty tid).result = Except.error e := by
  have hTid : tid ≠ env.now ++ "_" ++ sanitizeFilename a.title := fun h => hbase h.symm
  simp [generate, andThen, updateStatus, stepDownload, stepTranscribe, progressWrite,
        failHandler, firstFree, collisionLoop, FS.mkdir, FS.dirExists, FS.get,
        FS.update, FS.rename, lookupDir, updateDirs, removeDir, DirContent.empty,
        FS.empty, hsw, hrn, hd, ht, hs, hL, hTid]



/-- No `failed` record among the status writes of a trace. -/
def failedFree (tr : List Event) : Prop := "failed" ∉ statesOf tr

lemma failedOnlyLastB_of_free (l : List String) (h : "failed" ∉ l) :
    failedOnlyLastB l = true := by
  induction l with
  | nil => rfl
  | cons s t ih =>
    simp only [failedOnlyLastB]
    rw [if_neg]
    · exact ih fun hm => h (List.mem_cons_of_mem _ hm)
    · intro hs; exact h (hs ▸ List.mem_cons_self _ _)

lemma failedOnlyLastB_append (l : List String) (h : "failed" ∉ l) :
    failedOnlyLastB (l ++ ["failed"]) = true := by
  induction l with
  | nil => decide
  | cons s t ih =>
    simp only [List.cons_append, failedOnlyLastB]
    rw [if_neg]
    · exact ih fun hm => h (List.mem_cons_of_mem _ hm)
    · intro hs; exact h (hs ▸ List.mem_cons_self _ _)

lemma updateStatus_trace (env : Env) (st : RunSt) (d : String) (r : StatusRecord) :
    (updateStatus env st d r).1.trace = st.trace ∨
    (updateStatus env st d r).1.trace = st.trace ++ [Event.statusWrite d r] := by
  unfold updateStatus
  split
  · split
    · exact Or.inr rfl
    · exact Or.inl rfl
  · exact Or.inl rfl

lemma updateStatus_free (env : Env) (st : RunSt) (d : String) (r : StatusRecord)
    (hr : r.status ≠ "failed") (h : failedFree st.trace) :
    failedFree (updateStatus env st d r).1.trace := by
  rcases updateStatus_trace env st d r with he | he <;>
    rw [failedFree, he]
  · exact h
  · simp only [statesOf_append, statesOf_write, statesOf_nil, List.mem_append,
      List.mem_singleton]
    rintro (hm | hm)
    · exact h hm
    · exact hr hm.symm

lemma failedFree_append (tr ext : List Event) (h : failedFree tr)
    (hext : statesOf ext = []) : failedFree (tr ++ ext) := by
  simp only [failedFree, statesOf_append, hext, List.append_nil]
  exact h

lemma stepDownload_free (env : Env) (st : RunSt) (d : String)
    (h : failedFree st.trace) : failedFree (stepDownload env st d).1.trace := by
  unfold stepDownload
  split
  · exact h
  · split
    · exact failedFree_append _ _ h rfl
    · exact failedFree_append _ _ h rfl

lemma progressWrite_free (env : Env) (st : RunSt) (td : Option String) (c : Bool)
    (m : String) (h : failedFree st.trace) :
    failedFree (progressWrite env st td c m).1.trace := by
  unfold progressWrite
  cases td with
  | none => exact h
  | some d =>
    cases c with
    | false => exact h
    | true => exact updateStatus_free env st d _ (by simp) h

lemma stepTranscribe_free (env : Env) (st : RunSt) (ap d : String) (td : Option String)
    (h : failedFree st.trace) : failedFree (stepTranscribe env st ap d td).1.trace := by
  unfold stepTranscribe
  split
  · exact h
  · split
    next st1 e heq =>
      have hthis := progressWrite_free env st td env.isLocalTranscriber
        "正在加载本地语音模型..." h
      rw [heq] at hthis
      exact hthis
    next st1 u heq =>
      have hf1 : failedFree st1.trace := by
        have hthis := progressWrite_free env st td env.isLocalTranscriber
          "正在加载本地语音模型..." h
        rw [heq] at hthis
        exact hthis
      cases henv : env.transcribe with
      | error e => simp only [henv]; exact failedFree_append _ _ hf1 rfl
      | ok t =>
        simp only [henv]
        split
        next st3 e heq3 =>
          have hthis := progressWrite_free env
            ⟨st1.fs, st1.trace ++ [Event.transcribeCalled], st1.writes⟩ td true
            "转录完成，正在保存..." (failedFree_append _ _ hf1 rfl)
          rw [heq3] at hthis
          exact hthis
        next st3 u3 heq3 =>
          have hthis := progressWrite_free env
            ⟨st1.fs, st1.trace ++ [Event.transcribeCalled], st1.writes⟩ td true
            "转录完成，正在保存..." (failedFree_append _ _ hf1 rfl)
          rw [heq3] at hthis
          exact hthis

lemma failHandler_ok (env : Env) (st : RunSt) (fd e : String) (h : failedFree st.trace) :
    failedOnlyLastB (statesOf (failHandler env st fd e).trace) = true := by
  unfold failHandler
  split
  · split
    next st1 u heq =>
      have htr := updateStatus_trace env st fd ⟨"failed", e⟩
      rw [heq] at htr
      simp only at htr ⊢
      rcases htr with h1 | h1 <;> rw [h1]
      · exact failedOnlyLastB_of_free _ h
      · simp only [statesOf_append, statesOf_write, statesOf_nil]
        exact failedOnlyLastB_append _ h
    next st1 e2 heq =>
      have htr := updateStatus_trace env st fd ⟨"failed", e⟩
      rw [heq] at htr
      simp only at htr ⊢
      rcases htr with h1 | h1 <;> rw [h1]
      · exact failedOnlyLastB_of_free _ h
      · simp only [statesOf_append, statesOf_write, statesOf_nil]
        exact failedOnlyLastB_append _ h
  · exact failedOnlyLastB_of_free _ h

lemma andThen_ok {α : Type} (env : Env) (fd : String) (x : RunSt × Except String α)
    (k : RunSt → α → GenOut)
    (hfree : failedFree x.1.trace)
    (hk : ∀ st a, failedFree st.trace →
      failedOnlyLastB (statesOf (k st a).trace) = true) :
    failedOnlyLastB
      (statesOf (andThen x (fun st e => failHandler env st fd e) k).trace) = true := by
  obtain ⟨st, r⟩ := x
  cases r with
  | error e => exact failHandler_ok env st fd e hfree
  | ok a => exact hk st a hfree

set_option maxHeartbeats 1000000 in
lemma generate_failed_only_last (env : Env) (tid : String) :
    failedOnlyLastB (statesOf (generate env FS.empty tid).trace) = true := by
  have hfree0 : failedFree ((⟨(FS.empty).mkdir tid, [], 0⟩ : RunSt)).trace := by
    simp [failedFree, statesOf]
  unfold generate
  apply andThen_ok
  · exact updateStatus_free _ _ _ _ (by decide) hfree0
  · intro st1 u1 hst1
    apply andThen_ok
    · exact stepDownload_free env st1 tid hst1
    · intro st2 audioMeta hst2
      by_cases hr : env.renameOk <;> simp only [hr, if_true, if_false]
      · apply andThen_ok
        · exact updateStatus_free _ _ _ _ (by decide) hst2
        · intro st4 u2 hst4
          apply andThen_ok
          · exact stepTranscribe_free _ _ _ _ _ hst4
          · intro st5 transcript hst5
            apply andThen_ok
            · exact updateStatus_free _ _ _ _ (by decide) hst5
            · intro st6 u3 hst6
              apply andThen_ok
              · exact failedFree_append _ _ hst6 rfl
              · intro st6a markdown0 hst6a
                apply andThen_ok
                · exact updateStatus_free _ _ _ _ (by decide) hst6a
                · intro st7 u4 hst7
                  apply andThen_ok
                  · exact updateStatus_free _ _ _ _ (by decide)
                      (failedFree_append _ _ hst7 (statesOf_shot_events _ _))
                  · intro st10 u5 hst10
                    exact failedOnlyLastB_of_free _ hst10
      · exact failHandler_ok _ _ _ _ hst2



/-! ## Claim theorems -/

/-- **C9.** For every rendered text containing zero screenshot markers, the
resolver returns the text unchanged and triggers no video download and no
frame extraction. -/
theorem C9_no_markers_no_download (se : ShotEnv) (md : String)
    (h : findMarkers md = []) :
    processScreenshots se md = ⟨md, []⟩ := by
  unfold processScreenshots
  simp [h]

/-- **C9 witness**: a concrete marker-free text, with a downloader that
would fail if ever invoked, passes through untouched. -/
theorem C9_witness :
    findMarkers "Plain summary with no captures." = [] ∧
    processScreenshots ⟨Except.error "net down", fun _ => Except.error "no frames"⟩
        "Plain summary with no captures."
      = ⟨"Plain summary with no captures.", []⟩ :=
  ⟨by decide, C9_no_markers_no_download _ _ (by decide)⟩

/-- **C7 counterexample.** The claim says `[[Screenshot:9:5]]` is recognized
and parses to 545; in fact the pattern requires exactly two digits of
seconds, so the marker is not matched at all and the resolver leaves the
text untouched (treating it as zero markers). -/
theorem C7_counterexample :
    findMarkers "[[Screenshot:9:5]]" = [] ∧
    (processScreenshots
        ⟨Except.ok "v.mp4", fun ts => Except.ok (ts.map fun t => toString t ++ ".jpg")⟩
        "[[Screenshot:9:5]]").text = "[[Screenshot:9:5]]" := by decide

/-- **C7 amended.** `[[Screenshot:09:05]]` and `[[Screenshot:9:05]]` (one- or
two-digit minutes) both parse to offset 9*60+5 = 545; `[[Screenshot:9:5]]`
is not recognized because the seconds group must be exactly two digits. -/
theorem C7_amended_parse :
    timestampsOf "[[Screenshot:09:05]]" = [545] ∧
    timestampsOf "[[Screenshot:9:05]]" = [545] ∧
    findMarkers "[[Screenshot:9:5]]" = [] := by decide

/-- **C3 counterexample.** Two occurrences of the same marker with two
extracted frames: the claim says the second occurrence is replaced by the
second frame, but the replacement loop uses `str.replace` (which replaces
all occurrences), so both occurrences receive the first frame and the
second frame is never referenced. -/
theorem C3_counterexample :
    (processScreenshots ⟨Except.ok "v.mp4", fun _ => Except.ok ["f0.jpg", "f1.jpg"]⟩
        "[[Screenshot:01:05]] a [[Screenshot:01:05]]").text =
      "![截图 01:05](screenshots/f0.jpg) a ![截图 01:05](screenshots/f0.jpg)" ∧
    "![截图 01:05](screenshots/f0.jpg) a ![截图 01:05](screenshots/f0.jpg)" ≠
      "![截图 01:05](screenshots/f0.jpg) a ![截图 01:05](screenshots/f1.jpg)" := by decide

/-- A replace-all pass whose pattern does not occur in the text is the
identity. -/
lemma replaceCh_id_of_no_occurrence (pat rep : List Char) :
    ∀ (fuel : Nat) (s : List Char), ¬ List.IsInfix pat s →
      replaceCh pat rep fuel s = s := by
  intro fuel
  induction fuel with
  | zero => intro s h; cases s <;> rfl
  | succ n ih =>
    intro s h
    cases s with
    | nil => rfl
    | cons c rest =>
      unfold replaceCh
      have hemp : ¬ pat.isEmpty = true := by
        intro he
        rw [List.isEmpty_iff.mp he] at h
        exact h List.nil_infix
      rw [if_neg hemp]
      have hpre : ¬ pat.isPrefixOf (c :: rest) = true := by
        intro hp
        exact h (List.IsPrefix.isInfix (List.isPrefixOf_iff_prefix.mp hp))
      rw [if_neg hpre]
      rw [ih rest fun hinf => h (List.infix_cons hinf)]

/-- `str.replace` is the identity when the pattern does not occur. -/
lemma pyReplace_id_of_no_occurrence (s pat rep : String)
    (h : ¬ List.IsInfix pat.toList s.toList) : pyReplace s pat rep = s := by
  unfold pyReplace
  rw [replaceCh_id_of_no_occurrence pat.toList rep.toList s.toList.length s.toList h]
  cases s
  rfl

/-- **C3 amended.** The replacement phase is one textual replace-all pass
per match, in first-to-last order, targeting the match's literal marker
text — not an independent positional substitution.  Consequently
(i) duplicate markers of the same `MM:SS` are not independent: for a text
whose matches are the same marker twice, as soon as the first pass's output
no longer contains the marker, the second pass is the identity, so every
occurrence carries the first occurrence's frame and the second frame is
never referenced (universal); (ii) on the specification's distinct-marker
example the two markers are replaced in order of appearance with the first
and second frame; (iii) a marker position beyond the frame list has all its
occurrences deleted; and (iv) positional correspondence is not guaranteed
in general — a frame path that itself contains marker text makes a later
pass rewrite an earlier insertion, mangling the first marker's image
reference instead of leaving it the claimed `i`-th-frame embed. -/
theorem C3_amended_replacement :
    (∀ (md mm ss f0 f1 : String),
        ¬ List.IsInfix (markerText mm ss).toList
            (pyReplace md (markerText mm ss) (imageText mm ss f0)).toList →
        replaceMarkersLoop [f0, f1] [(mm, ss), (mm, ss)] md =
          pyReplace md (markerText mm ss) (imageText mm ss f0)) ∧
    (processScreenshots ⟨Except.ok "v.mp4", fun _ => Except.ok ["a.jpg", "b.jpg"]⟩
        "[[Screenshot:01:05]] and [[Screenshot:00:30]]").text =
      "![截图 01:05](screenshots/a.jpg) and ![截图 00:30](screenshots/b.jpg)" ∧
    (processScreenshots ⟨Except.ok "v.mp4", fun _ => Except.ok ["a.jpg"]⟩
        "[[Screenshot:01:05]] and [[Screenshot:00:30]]").text =
      "![截图 01:05](screenshots/a.jpg) and " ∧
    (processScreenshots ⟨Except.ok "v.mp4", fun _ => Except.ok ["[[Screenshot:00:30]]"]⟩
        "[[Screenshot:01:05]] x [[Screenshot:00:30]]").text =
      "![截图 01:05](screenshots/) x " ∧
    "![截图 01:05](screenshots/) x " ≠
      "![截图 01:05](screenshots/[[Screenshot:00:30]]) x " := by
  refine ⟨?_, by decide, by decide, by decide, by decide⟩
  intro md mm ss f0 f1 h
  have hstep : replaceMarkersLoop [f0, f1] [(mm, ss), (mm, ss)] md =
      pyReplace (pyReplace md (markerText mm ss) (imageText mm ss f0))
        (markerText mm ss) (imageText mm ss f1) := rfl
  rw [hstep, pyReplace_id_of_no_occurrence _ _ _ h]

/-- **C3 witness**: the duplicate-pass conjunct instantiated at the
counterexample input — with frames `f0.jpg`, `f1.jpg` and the duplicated
marker `[[Screenshot:01:05]]`, the whole replacement equals the single
first pass (both occurrences get `f0.jpg`; `f1.jpg` is unreferenced). -/
theorem C3_witness :
    replaceMarkersLoop ["f0.jpg", "f1.jpg"] [("01", "05"), ("01", "05")]
        "[[Screenshot:01:05]] a [[Screenshot:01:05]]" =
      pyReplace "[[Screenshot:01:05]] a [[Screenshot:01:05]]"
        (markerText "01" "05") (imageText "01" "05" "f0.jpg") :=
  C3_amended_replacement.1 "[[Screenshot:01:05]] a [[Screenshot:01:05]]"
    "01" "05" "f0.jpg" "f1.jpg" (by decide)

/-- **C5.** If the text contains at least one marker and the video download
or frame extraction raises, the resolver catches the error and returns the
text with every marker deleted (none replaced); and a screenshot failure
never fails the task: with all other steps succeeding, `generate` still
returns a result, whatever the screenshot oracles do. -/
theorem C5_screenshot_failure_degrades :
    (∀ (se : ShotEnv) (md e : String), findMarkers md ≠ [] →
        se.downloadVideo = Except.error e →
        (processScreenshots se md).text = stripMarkers md) ∧
    (∀ (se : ShotEnv) (md v e : String), findMarkers md ≠ [] →
        se.downloadVideo = Except.ok v →
        se.extractFrames (timestampsOf md) = Except.error e →
        (processScreenshots se md).text = stripMarkers md) ∧
    (∀ (env : Env) (tid : String) (a : AudioDownloadResult) (t : TranscriptResult)
        (md : String),
        env.statusWriteOk = (fun _ => true) → env.renameOk = true →
        env.download = Except.ok a → env.transcribe = Except.ok t →
        env.summarize = Except.ok md →
        env.now ++ "_" ++ sanitizeFilename a.title ≠ tid →
        ∃ r, (generate env FS.empty tid).result = Except.ok r) := by
  refine ⟨?_, ?_, ?_⟩
  · intro se md e hne hdv
    rcases hf : findMarkers md with _ | ⟨p, l⟩
    · exact absurd hf hne
    · unfold processScreenshots
      simp [hf, hdv]
  · intro se md v e hne hdv hef
    rcases hf : findMarkers md with _ | ⟨p, l⟩
    · exact absurd hf hne
    · unfold timestampsOf at hef
      rw [hf] at hef
      have hef2 : se.extractFrames
          ((natOfDigits p.1.data * 60 + natOfDigits p.2.data) ::
            List.map (fun q => natOfDigits q.1.data * 60 + natOfDigits q.2.data) l)
          = Except.error e := hef
      unfold processScreenshots
      simp [hf, hdv, hef2]
  · intro env tid a t md h1 h2 h3 h4 h5 h6
    exact ⟨_, (generate_success_trace env tid a t md h1 h2 h3 h4 h5 h6).2⟩

/-- **C5 witness**: the specification's two-marker text with an unreachable
video, and with failing frame extraction, comes back with both markers
removed; a full pipeline run with a failing screenshot downloader still
succeeds. -/
theorem C5_witness :
    (processScreenshots ⟨Except.error "unreachable", fun _ => Except.ok []⟩
        "[[Screenshot:01:05]] and [[Screenshot:00:30]]").text =
      stripMarkers "[[Screenshot:01:05]] and [[Screenshot:00:30]]" ∧
    (processScreenshots ⟨Except.ok "v.mp4", fun _ => Except.error "ffmpeg failed"⟩
        "[[Screenshot:01:05]] and [[Screenshot:00:30]]").text =
      stripMarkers "[[Screenshot:01:05]] and [[Screenshot:00:30]]" ∧
    ∃ r, (generate { okEnv with downloadVideo := Except.error "unreachable" }
        FS.empty "tid-1").result = Except.ok r :=
  ⟨C5_screenshot_failure_degrades.1 _ _ "unreachable" (by decide) rfl,
   C5_screenshot_failure_degrades.2.1 _ _ "v.mp4" "ffmpeg failed" (by decide) rfl rfl,
   C5_screenshot_failure_degrades.2.2 _ "tid-1" sampleAudio sampleTranscript
     "note body" rfl rfl rfl rfl rfl (by decide)⟩


/-- **C2.** For each cached pipeline step: a cache file that deserializes to
a valid artifact short-circuits the step (the collaborator is not invoked —
the run state is returned untouched, with no invocation event); a missing
or corrupt (unparseable) cache file is treated identically as a miss — the
collaborator is invoked, its fresh result is stored in the cache, and the
corrupt cache never surfaces as an error. -/
theorem C2_cache_round_trip :
    (∀ (env : Env) (st : RunSt) (dir : String) (a : AudioDownloadResult),
        ((st.fs.get dir).map (fun d => d.audioCache)).getD CacheState.absent
          = CacheState.valid a →
        stepDownload env st dir = (st, Except.ok a)) ∧
    (∀ (env : Env) (st : RunSt) (dir : String) (b : AudioDownloadResult),
        (((st.fs.get dir).map (fun d => d.audioCache)).getD CacheState.absent
            = CacheState.invalid ∨
         ((st.fs.get dir).map (fun d => d.audioCache)).getD CacheState.absent
            = CacheState.absent) →
        env.download = Except.ok b →
        stepDownload env st dir =
          (⟨st.fs.update dir (fun d => { d with audioCache := CacheState.valid b }),
            st.trace ++ [Event.downloadCalled], st.writes⟩, Except.ok b)) ∧
    (∀ (env : Env) (st : RunSt) (ap dir : String) (td : Option String)
        (t : TranscriptResult),
        ((st.fs.get dir).map (fun d => d.transcriptCache)).getD CacheState.absent
          = CacheState.valid t →
        stepTranscribe env st ap dir td = (st, Except.ok t)) ∧
    (∀ (env : Env) (st : RunSt) (ap dir : String) (t : TranscriptResult),
        (((st.fs.get dir).map (fun d => d.transcriptCache)).getD CacheState.absent
            = CacheState.invalid ∨
         ((st.fs.get dir).map (fun d => d.transcriptCache)).getD CacheState.absent
            = CacheState.absent) →
        env.transcribe = Except.ok t →
        stepTranscribe env st ap dir none =
          (⟨st.fs.update dir (fun d => { d with transcriptCache := CacheState.valid t }),
            st.trace ++ [Event.transcribeCalled], st.writes⟩, Except.ok t)) := by
  refine ⟨?_, ?_, ?_, ?_⟩
  · intro env st dir a hc
    unfold stepDownload
    simp [hc]
  · intro env st dir b hc hdl
    rcases hc with hc | hc <;>
      · unfold stepDownload
        simp [hc, hdl]
  · intro env st ap dir td t hc
    unfold stepTranscribe
    simp [hc]
  · intro env st ap dir t hc ht
    rcases hc with hc | hc <;>
      · unfold stepTranscribe
        simp [hc, ht, progressWrite]

/-- **C2 witness**: concrete runs over a one-directory filesystem whose
cache is valid, corrupt, and absent respectively. -/
theorem C2_witness :
    stepDownload okEnv ⟨⟨[("d", dirWithAudio)]⟩, [], 0⟩ "d"
      = (⟨⟨[("d", dirWithAudio)]⟩, [], 0⟩, Except.ok sampleAudio) ∧
    stepDownload okEnv ⟨⟨[("d", dirCorrupt)]⟩, [], 0⟩ "d"
      = (⟨(FS.mk [("d", dirCorrupt)]).update "d"
            (fun d => { d with audioCache := CacheState.valid sampleAudio }),
          [] ++ [Event.downloadCalled], 0⟩, Except.ok sampleAudio) ∧
    stepDownload okEnv ⟨⟨[("d", DirContent.empty)]⟩, [], 0⟩ "d"
      = (⟨(FS.mk [("d", DirContent.empty)]).update "d"
            (fun d => { d with audioCache := CacheState.valid sampleAudio }),
          [] ++ [Event.downloadCalled], 0⟩, Except.ok sampleAudio) ∧
    stepTranscribe okEnv ⟨⟨[("d", dirWithTranscript)]⟩, [], 0⟩ "/data/a.m4a" "d" (some "d")
      = (⟨⟨[("d", dirWithTranscript)]⟩, [], 0⟩, Except.ok sampleTranscript) ∧
    stepTranscribe okEnv ⟨⟨[("d", dirCorrupt)]⟩, [], 0⟩ "/data/a.m4a" "d" none
      = (⟨(FS.mk [("d", dirCorrupt)]).update "d"
            (fun d => { d with transcriptCache := CacheState.valid sampleTranscript }),
          [] ++ [Event.transcribeCalled], 0⟩, Except.ok sampleTranscript) :=
  ⟨C2_cache_round_trip.1 okEnv _ "d" sampleAudio (by decide),
   C2_cache_round_trip.2.1 okEnv _ "d" sampleAudio (Or.inl (by decide)) rfl,
   C2_cache_round_trip.2.1 okEnv _ "d" sampleAudio (Or.inr (by decide)) rfl,
   C2_cache_round_trip.2.2.1 okEnv _ "/data/a.m4a" "d" (some "d") sampleTranscript
     (by decide),
   C2_cache_round_trip.2.2.2 okEnv _ "/data/a.m4a" "d" sampleTranscript
     (Or.inl (by decide)) rfl⟩


/-- **C1 counterexample.** A fully successful fresh run never writes
`pending` to the status ledger (its first write is `downloading`, and the
`transcribing` state is written repeatedly), so the ledger sequence is not
the claimed `pending, downloading, transcribing, summarizing, screenshots,
success`. -/
theorem C1_counterexample :
    statesOf (generate okEnv FS.empty "tid-1").trace =
      ["downloading", "transcribing", "transcribing", "summarizing",
       "screenshots", "success"] ∧
    collapseRuns (statesOf (generate okEnv FS.empty "tid-1").trace) ≠
      ["pending", "downloading", "transcribing", "summarizing",
       "screenshots", "success"] ∧
    "pending" ∉ statesOf (generate okEnv FS.empty "tid-1").trace := by decide

/-- **C1 amended.** On a successful fresh run the ledger write sequence,
with consecutive repeats collapsed, is exactly `downloading, transcribing,
summarizing, screenshots, success` — `pending` is never written (it exists
only in the submission response).  `failed` is reachable from `downloading`,
`transcribing` and `summarizing` (a failing download, transcription or LLM
call), carries the triggering error description as its message, and within
a run is written at most once and only as the final ledger write. -/
theorem C1_status_state_machine :
    (∀ (env : Env) (tid : String) (a : AudioDownloadResult) (t : TranscriptResult)
        (md : String),
        env.statusWriteOk = (fun _ => true) → env.renameOk = true →
        env.download = Except.ok a → env.transcribe = Except.ok t →
        env.summarize = Except.ok md →
        env.now ++ "_" ++ sanitizeFilename a.title ≠ tid →
        collapseRuns (statesOf (generate env FS.empty tid).trace) =
          ["downloading", "transcribing", "summarizing", "screenshots", "success"] ∧
        "pending" ∉ statesOf (generate env FS.empty tid).trace) ∧
    (∀ (env : Env) (tid e : String),
        env.statusWriteOk = (fun _ => true) → env.download = Except.error e →
        (generate env FS.empty tid).trace =
          [Event.statusWrite tid ⟨"downloading", "正在下载视频音频..."⟩,
           Event.downloadCalled,
           Event.statusWrite tid ⟨"failed", e⟩] ∧
        (generate env FS.empty tid).result = Except.error e) ∧
    (∀ (env : Env) (tid : String) (a : AudioDownloadResult) (e : String),
        env.statusWriteOk = (fun _ => true) → env.renameOk = true →
        env.download = Except.ok a → env.transcribe = Except.error e →
        env.isLocalTranscriber = false →
        env.now ++ "_" ++ sanitizeFilename a.title ≠ tid →
        statesOf (generate env FS.empty tid).trace =
          ["downloading", "transcribing", "failed"] ∧
        (generate env FS.empty tid).trace.getLast? =
          some (Event.statusWrite (env.now ++ "_" ++ sanitizeFilename a.title)
            ⟨"failed", e⟩) ∧
        (generate env FS.empty tid).result = Except.error e) ∧
    (∀ (env : Env) (tid : String) (a : AudioDownloadResult) (t : TranscriptResult)
        (e : String),
        env.statusWriteOk = (fun _ => true) → env.renameOk = true →
        env.download = Except.ok a → env.transcribe = Except.ok t →
        env.summarize = Except.error e → env.isLocalTranscriber = false →
        env.now ++ "_" ++ sanitizeFilename a.title ≠ tid →
        statesOf (generate env FS.empty tid).trace =
          ["downloading", "transcribing", "transcribing", "summarizing", "failed"] ∧
        (generate env FS.empty tid).trace.getLast? =
          some (Event.statusWrite (env.now ++ "_" ++ sanitizeFilename a.title)
            ⟨"failed", e⟩) ∧
        (generate env FS.empty tid).result = Except.error e) ∧
    (∀ (env : Env) (tid : String),
        failedOnlyLastB (statesOf (generate env FS.empty tid).trace) = true) := by
  refine ⟨?_, ?_, ?_, ?_, ?_⟩
  · intro env tid a t md h1 h2 h3 h4 h5 h6
    have h := generate_success_trace env tid a t md h1 h2 h3 h4 h5 h6
    refine ⟨?_, ?_⟩
    · rw [h.1]
      cases hL : env.isLocalTranscriber <;> simp [hL, collapseRuns]
    · rw [h.1]
      cases hL : env.isLocalTranscriber <;> simp [hL]
  · intro env tid e h1 h2
    exact generate_download_fail env tid e h1 h2
  · intro env tid a e h1 h2 h3 h4 h5 h6
    exact generate_transcribe_fail env tid a e h1 h2 h3 h4 h5 h6
  · intro env tid a t e h1 h2 h3 h4 h5 h6 h7
    exact generate_summarize_fail env tid a t e h1 h2 h3 h4 h5 h6 h7
  · intro env tid
    exact generate_failed_only_last env tid

/-- **C1 witness**: the successful-run and download-failure conjuncts
instantiated at concrete environments. -/
theorem C1_witness :
    (collapseRuns (statesOf (generate okEnv FS.empty "tid-1").trace) =
        ["downloading", "transcribing", "summarizing", "screenshots", "success"] ∧
      "pending" ∉ statesOf (generate okEnv FS.empty "tid-1").trace) ∧
    ((generate dlFailEnv FS.empty "tid-1").trace =
        [Event.statusWrite "tid-1" ⟨"downloading", "正在下载视频音频..."⟩,
         Event.downloadCalled,
         Event.statusWrite "tid-1" ⟨"failed", "DownloadError: boom"⟩] ∧
      (generate dlFailEnv FS.empty "tid-1").result =
        Except.error "DownloadError: boom") ∧
    failedOnlyLastB (statesOf (generate dlFailEnv FS.empty "tid-1").trace) = true :=
  ⟨C1_status_state_machine.1 okEnv "tid-1" sampleAudio sampleTranscript "note body"
     rfl rfl rfl rfl rfl (by decide),
   C1_status_state_machine.2.1 dlFailEnv "tid-1" "DownloadError: boom" rfl rfl,
   C1_status_state_machine.2.2.2.2 dlFailEnv "tid-1"⟩

/-- **C4 counterexample.** The claim says a failing status write must not
abort an otherwise-successful step: here every collaborator succeeds but
the `summarizing` status write (write attempt 3) raises, and the run aborts
— the LLM step is never reached, the task is marked `failed` with the
status-write error as its message, and the error is re-raised. -/
theorem C4_counterexample :
    (generate wFailEnv FS.empty "tid-1").result =
      Except.error "status write failed" ∧
    Event.summarizeCalled ∉ (generate wFailEnv FS.empty "tid-1").trace ∧
    getStatus (generate wFailEnv FS.empty "tid-1").fs "tid-1" =
      ⟨"failed", "status write failed"⟩ := by decide

/-- **C4 amended.** A Status Ledger write failure is not absorbed: the
exception propagates out of `_update_status`, aborting the pipeline — the
top-level handler marks the task `failed` (when the workspace still exists)
and re-raises — so a successful step's result does not advance the pipeline
past a failed status write. -/
theorem C4_status_write_failure_aborts
    (env : Env) (tid : String) (a : AudioDownloadResult) (t : TranscriptResult)
    (md : String)
    (hsw : env.statusWriteOk = fun n => decide (n ≠ 3))
    (hrn : env.renameOk = true)
    (hd : env.download = Except.ok a)
    (ht : env.transcribe = Except.ok t)
    (_hs : env.summarize = Except.ok md)
    (hL : env.isLocalTranscriber = false)
    (hbase : env.now ++ "_" ++ sanitizeFilename a.title ≠ tid) :
    (generate env FS.empty tid).result = Except.error "status write failed" ∧
    Event.summarizeCalled ∉ (generate env FS.empty tid).trace ∧
    statesOf (generate env FS.empty tid).trace =
      ["downloading", "transcribing", "transcribing", "failed"] := by
  have hTid : tid ≠ env.now ++ "_" ++ sanitizeFilename a.title := fun h => hbase h.symm
  simp [generate, andThen, updateStatus, stepDownload, stepTranscribe, progressWrite,
        failHandler, firstFree, collisionLoop, FS.mkdir, FS.dirExists, FS.get,
        FS.update, FS.rename, lookupDir, updateDirs, removeDir, DirContent.empty,
        FS.empty, hsw, hrn, hd, ht, hL, hTid]

/-- **C4 witness**: the amended behaviour at the concrete environment of the
counterexample. -/
theorem C4_witness :
    (generate wFailEnv FS.empty "tid-1").result =
      Except.error "status write failed" ∧
    Event.summarizeCalled ∉ (generate wFailEnv FS.empty "tid-1").trace ∧
    statesOf (generate wFailEnv FS.empty "tid-1").trace =
      ["downloading", "transcribing", "transcribing", "failed"] :=
  C4_status_write_failure_aborts wFailEnv "tid-1" sampleAudio sampleTranscript
    "note body" rfl rfl rfl rfl rfl rfl (by decide)


/-- **C6.** When the promoted descriptive name already exists on disk, the
collision loop appends `_1` (then `_2`, …) until the first free name; the
`.task_id` back-reference is written into the promoted directory; and a
lookup by the original task id still resolves to the promoted workspace,
whose status reads `success`. -/
theorem C6_promotion_collision_and_lookup
    (env : Env) (tid : String) (a : AudioDownloadResult) (t : TranscriptResult)
    (md : String) (d0 : DirContent)
    (hsw : env.statusWriteOk = fun _ => true)
    (hrn : env.renameOk = true)
    (hd : env.download = Except.ok a)
    (ht : env.transcribe = Except.ok t)
    (hs : env.summarize = Except.ok md)
    (hbase : env.now ++ "_" ++ sanitizeFilename a.title ≠ tid)
    (h1base : env.now ++ "_" ++ sanitizeFilename a.title ++ "_" ++ toString 1 ≠
        env.now ++ "_" ++ sanitizeFilename a.title)
    (h1tid : env.now ++ "_" ++ sanitizeFilename a.title ++ "_" ++ toString 1 ≠ tid)
    (hd0 : d0.taskIdFile ≠ some tid) :
    findDirByTaskId
        (generate env ⟨[(env.now ++ "_" ++ sanitizeFilename a.title, d0)]⟩ tid).fs tid =
      some (env.now ++ "_" ++ sanitizeFilename a.title ++ "_" ++ toString 1) ∧
    ((generate env ⟨[(env.now ++ "_" ++ sanitizeFilename a.title, d0)]⟩ tid).fs.get
        (env.now ++ "_" ++ sanitizeFilename a.title ++ "_" ++ toString 1)).map
        (fun d => d.taskIdFile) = some (some tid) ∧
    getStatus
        (generate env ⟨[(env.now ++ "_" ++ sanitizeFilename a.title, d0)]⟩ tid).fs tid =
      ⟨"success", "笔记生成完成"⟩ ∧
    (∃ r, (generate env ⟨[(env.now ++ "_" ++ sanitizeFilename a.title, d0)]⟩ tid).result
        = Except.ok r) := by
  have hTid : tid ≠ env.now ++ "_" ++ sanitizeFilename a.title := fun h => hbase h.symm
  have hb1 : env.now ++ "_" ++ sanitizeFilename a.title ≠
      env.now ++ "_" ++ sanitizeFilename a.title ++ "_" ++ toString 1 :=
    fun h => h1base h.symm
  have ht1 : tid ≠ env.now ++ "_" ++ sanitizeFilename a.title ++ "_" ++ toString 1 :=
    fun h => h1tid h.symm
  cases hL : env.isLocalTranscriber <;>
    simp [generate, andThen, updateStatus, stepDownload, stepTranscribe, progressWrite,
          failHandler, firstFree, collisionLoop, FS.mkdir, FS.dirExists, FS.get,
          FS.update, FS.rename, lookupDir, updateDirs, removeDir, DirContent.empty,
          getStatus, findDirByTaskId, scanTaskId, savedOf,
          hsw, hrn, hd, ht, hs, hL, hTid, hb1, ht1, h1base, h1tid, hbase, hd0]

/-- **C6 witness**: with `output/20240101_Demo` already on disk, the
workspace is promoted to `20240101_Demo_1`, the back-reference is written,
and lookup by the task id still succeeds. -/
theorem C6_witness :
    findDirByTaskId
        (generate okEnv ⟨[("20240101" ++ "_" ++ sanitizeFilename sampleAudio.title,
          DirContent.empty)]⟩ "tid-1").fs "tid-1" =
      some ("20240101" ++ "_" ++ sanitizeFilename sampleAudio.title ++ "_" ++
        toString 1) ∧
    ((generate okEnv ⟨[("20240101" ++ "_" ++ sanitizeFilename sampleAudio.title,
          DirContent.empty)]⟩ "tid-1").fs.get
        ("20240101" ++ "_" ++ sanitizeFilename sampleAudio.title ++ "_" ++
          toString 1)).map (fun d => d.taskIdFile) = some (some "tid-1") ∧
    getStatus
        (generate okEnv ⟨[("20240101" ++ "_" ++ sanitizeFilename sampleAudio.title,
          DirContent.empty)]⟩ "tid-1").fs "tid-1" =
      ⟨"success", "笔记生成完成"⟩ ∧
    (∃ r, (generate okEnv ⟨[("20240101" ++ "_" ++ sanitizeFilename sampleAudio.title,
        DirContent.empty)]⟩ "tid-1").result = Except.ok r) :=
  C6_promotion_collision_and_lookup okEnv "tid-1" sampleAudio sampleTranscript
    "note body" DirContent.empty rfl rfl rfl rfl rfl (by decide) (by decide)
    (by decide) (by decide)

/-- **C8 counterexample.** The claim says a result can be observed only once
the status reads `success`: here every step succeeds but the final
`success` status write fails, so the persisted result record exists (and
`get_result` returns it) while the status ledger reads `failed` — a
non-absent result observed without `success`. -/
theorem C8_counterexample :
    (getResult (generate successWriteFailEnv FS.empty "tid-1").fs "tid-1").isSome
      = true ∧
    (getStatus (generate successWriteFailEnv FS.empty "tid-1").fs "tid-1").status
      = "failed" := by decide

/-- **C8 amended.** `get_result` returns exactly the persisted `result.json`
record and does not consult the status: the result is absent for every run
that fails at or before the LLM step (nothing was persisted), and present
with the assembled note after the persistence step — which happens just
before the `success` status write, so a non-absent result can also be
observed when that final write fails and the status reads `failed`. -/
theorem C8_result_absent_until_persisted :
    (∀ (env : Env) (tid : String) (a : AudioDownloadResult) (t : TranscriptResult)
        (e : String),
        env.statusWriteOk = (fun _ => true) → env.renameOk = true →
        env.download = Except.ok a → env.transcribe = Except.ok t →
        env.summarize = Except.error e → env.isLocalTranscriber = false →
        env.now ++ "_" ++ sanitizeFilename a.title ≠ tid →
        getResult (generate env FS.empty tid).fs tid = none) ∧
    (∀ (env : Env) (tid : String) (a : AudioDownloadResult) (t : TranscriptResult)
        (md : String),
        env.statusWriteOk = (fun _ => true) → env.renameOk = true →
        env.download = Except.ok a → env.transcribe = Except.ok t →
        env.summarize = Except.ok md →
        env.now ++ "_" ++ sanitizeFilename a.title ≠ tid →
        getResult (generate env FS.empty tid).fs tid =
          some ⟨(processScreenshots ⟨env.downloadVideo, env.extractFrames⟩ md).text,
                a.title, a.duration, a.platform, a.video_id, a.cover_url⟩) := by
  constructor
  · intro env tid a t e hsw hrn hd ht hs hL hbase
    have hTid : tid ≠ env.now ++ "_" ++ sanitizeFilename a.title :=
      fun h => hbase h.symm
    simp [generate, andThen, updateStatus, stepDownload, stepTranscribe, progressWrite,
          failHandler, firstFree, collisionLoop, FS.mkdir, FS.dirExists, FS.get,
          FS.update, FS.rename, lookupDir, updateDirs, removeDir, DirContent.empty,
          FS.empty, getResult, findDirByTaskId, scanTaskId,
          hsw, hrn, hd, ht, hs, hL, hTid, hbase]
  · intro env tid a t md hsw hrn hd ht hs hbase
    have hTid : tid ≠ env.now ++ "_" ++ sanitizeFilename a.title :=
      fun h => hbase h.symm
    cases hL : env.isLocalTranscriber <;>
      simp [generate, andThen, updateStatus, stepDownload, stepTranscribe, progressWrite,
            failHandler, firstFree, collisionLoop, FS.mkdir, FS.dirExists, FS.get,
            FS.update, FS.rename, lookupDir, updateDirs, removeDir, DirContent.empty,
            FS.empty, getResult, findDirByTaskId, scanTaskId, savedOf,
            hsw, hrn, hd, ht, hs, hL, hTid, hbase]

/-- **C8 witness**: a run failing at the LLM step yields an absent result; a
fully successful run yields the persisted note record. -/
theorem C8_witness :
    getResult (generate sumFailEnv FS.empty "tid-1").fs "tid-1" = none ∧
    getResult (generate okEnv FS.empty "tid-1").fs "tid-1" =
      some ⟨"note body", "Demo", 120, "youtube", "vid1", none⟩ :=
  ⟨C8_result_absent_until_persisted.1 sumFailEnv "tid-1" sampleAudio
     sampleTranscript "SummarizationError: auth" rfl rfl rfl rfl rfl rfl (by decide),
   C8_result_absent_until_persisted.2 okEnv "tid-1" sampleAudio sampleTranscript
     "note body" rfl rfl rfl rfl rfl (by decide)⟩

/-- **C10.** If the rename to the promoted descriptive name raises after
`final_dir` has been reassigned, the failure handler's existence guard on
`final_dir` fails (the promoted directory was chosen free), so no `failed`
status is written anywhere — the only ledger write of the run remains
`downloading` — the error is re-raised, and a polling caller still observes
`downloading`, not `failed`. -/
theorem C10_rename_window_no_failed_status
    (env : Env) (tid : String) (a : AudioDownloadResult)
    (hsw : env.statusWriteOk = fun _ => true)
    (hd : env.download = Except.ok a)
    (hrn : env.renameOk = false)
    (hbase : env.now ++ "_" ++ sanitizeFilename a.title ≠ tid) :
    (generate env FS.empty tid).result = Except.error "rename failed" ∧
    statesOf (generate env FS.empty tid).trace = ["downloading"] ∧
    getStatus (generate env FS.empty tid).fs tid =
      ⟨"downloading", "正在下载视频音频..."⟩ := by
  have hTid : tid ≠ env.now ++ "_" ++ sanitizeFilename a.title := fun h => hbase h.symm
  simp [generate, andThen, updateStatus, stepDownload, failHandler, firstFree,
        collisionLoop, FS.mkdir, FS.dirExists, FS.get, FS.update, FS.rename,
        lookupDir, updateDirs, removeDir, DirContent.empty, FS.empty,
        getStatus, findDirByTaskId, scanTaskId,
        hsw, hd, hrn, hTid, hbase]

/-- **C10 witness**: the rename-failure environment at concrete inputs. -/
theorem C10_witness :
    (generate renameFailEnv FS.empty "tid-1").result = Except.error "rename failed" ∧
    statesOf (generate renameFailEnv FS.empty "tid-1").trace = ["downloading"] ∧
    getStatus (generate renameFailEnv FS.empty "tid-1").fs "tid-1" =
      ⟨"downloading", "正在下载视频音频..."⟩ :=
  C10_rename_window_no_failed_status renameFailEnv "tid-1" sampleAudio
    rfl rfl rfl (by decide)

end VideoNote
